import Mathlib

/-!
Verification of the two icon-generator scripts of the VersionPlanExtension
repository: `assets/create-icon.py` (Generator A) and `create_png_icon.py`
(Generator B).

The scripts are straight-line sequences of calls into an imaging library
(PIL).  We embed them shallowly:

* a canvas is a record of mode, dimensions, background colour and the list
  of drawing operations performed on it, in order;
* pixel values are obtained by folding the operation list, with the
  rasterisation of library text/arc/ellipse primitives supplied as an
  explicit parameter (PIL documents only that these primitives paint inside
  their bounding boxes; rectangle outlines are modelled exactly, as an
  inward band of the given stroke width);
* each run is a function from an environment (which third-party loads
  succeed, which file writes succeed) to the ordered list of externally
  visible effects (file writes, printed lines) together with an outcome
  (success, or termination by an unhandled fault).

Machine integers do not occur: Python integers are unbounded, and the
Python floor division `//` is `Int.fdiv`.
-/

namespace IconGen

/-- An RGBA colour value; for RGB-mode images the alpha component is 255.
Components are unbounded naturals, as in the Python source all literals
are in 0..255. -/
structure Color where
  r : Nat
  g : Nat
  b : Nat
  a : Nat
deriving DecidableEq, Repr

/-- A colour given in the source as an RGB triple (opaque). -/
def Color.rgb (r g b : Nat) : Color := ⟨r, g, b, 255⟩

/-- An integer bounding box [x0, y0, x1, y1], as used by the PIL calls
`textbbox`, `rectangle`, `arc` and `ellipse`. -/
structure BBoxI where
  x0 : Int
  y0 : Int
  x1 : Int
  y1 : Int
deriving DecidableEq, Repr

/-- Membership of an integer pixel in a bounding box (both edges
inclusive, PIL convention). -/
def inBBox (bb : BBoxI) (x y : Int) : Bool :=
  decide (bb.x0 ≤ x) && decide (x ≤ bb.x1) && decide (bb.y0 ≤ y) && decide (y ≤ bb.y1)

/-- A font value as obtainable in `create-icon.py`: a truetype font loaded
from a name or path at a point size, or the PIL built-in default font. -/
inductive Font where
  | truetype (path : String) (size : Nat)
  | builtinDefault
deriving DecidableEq, Repr

/-- Image mode, from the first argument of `Image.new`. -/
inductive Mode where
  | RGB
  | RGBA
deriving DecidableEq, Repr

/-- One drawing operation, one per `draw.*` call in the sources. -/
inductive DrawOp where
  | text (pos : Int × Int) (s : String) (fill : Color) (font : Font)
  | rectangleOutline (bb : BBoxI) (outline : Color) (width : Nat)
  | arc (bb : BBoxI) (startAngle endAngle : Nat) (fill : Color) (width : Nat)
  | ellipseFill (bb : BBoxI) (fill : Color)
deriving DecidableEq, Repr

/-- A canvas: mode and size from `Image.new`, its background colour, and
the drawing operations applied to it in program order. -/
structure Canvas where
  mode : Mode
  width : Nat
  height : Nat
  background : Color
  ops : List DrawOp
deriving DecidableEq, Repr

/-- Rasterisation of the library primitives whose exact pixel coverage PIL
does not specify: which pixels a text / arc / ellipse call paints.
Modelled from the spec: PIL is a third-party library not in this
repository; its drawing routines are embedded as this parameter. -/
structure Raster where
  textCov : (Int × Int) → String → Font → Int → Int → Bool
  arcCov : BBoxI → Nat → Nat → Nat → Int → Int → Bool
  ellipseCov : BBoxI → Int → Int → Bool

/-- PIL documents arcs and ellipses as drawn inside the given bounding
box; a rasterisation is confined when it honours that. -/
def Raster.Confined (rz : Raster) : Prop :=
  (∀ bb s e w x y, rz.arcCov bb s e w x y = true → inBBox bb x y = true) ∧
  (∀ bb x y, rz.ellipseCov bb x y = true → inBBox bb x y = true)

/-- Exact coverage of `draw.rectangle(bb, outline=c, width=w)`: PIL paints
a band of `w` pixels inward from each edge of the box. -/
def rectOutlineCov (bb : BBoxI) (w : Nat) (x y : Int) : Bool :=
  inBBox bb x y &&
    (decide (x < bb.x0 + w) || decide (bb.x1 - w < x) ||
     decide (y < bb.y0 + w) || decide (bb.y1 - w < y))

/-- The colour painted on pixel (x, y) by one drawing operation, if any. -/
def opPaints (rz : Raster) (op : DrawOp) (x y : Int) : Option Color :=
  match op with
  | .text pos s fill font => if rz.textCov pos s font x y then some fill else none
  | .rectangleOutline bb c w => if rectOutlineCov bb w x y then some c else none
  | .arc bb sa ea fill w => if rz.arcCov bb sa ea w x y then some fill else none
  | .ellipseFill bb fill => if rz.ellipseCov bb x y then some fill else none

/-- Final colour of pixel (x, y): the background overpainted by the
operations in program order (later operations win). -/
def Canvas.pixel (rz : Raster) (c : Canvas) (x y : Int) : Color :=
  c.ops.foldl (fun acc op => (opPaints rz op x y).getD acc) c.background

/-- Content of a file written by a run. -/
inductive FileContent where
  | image (c : Canvas)
  | text (s : String)
deriving DecidableEq, Repr

/-- One externally visible effect, in the order the run performs them. -/
inductive Effect where
  | writeFile (path : String) (content : FileContent)
  | mkdir (path : String)
  | printLine (s : String)
deriving DecidableEq, Repr

/-- How a run ends: falls off the end of the script, or is terminated by
an unhandled exception. -/
inductive Outcome where
  | success
  | fault
deriving DecidableEq, Repr

/-- A run: the effects that happened (in order) and how the run ended. -/
structure RunResult where
  effects : List Effect
  outcome : Outcome
deriving DecidableEq, Repr

/-- The file-write effects of a run, as (path, content) pairs. -/
def RunResult.writes (r : RunResult) : List (String × FileContent) :=
  r.effects.filterMap fun e =>
    match e with
    | .writeFile p c => some (p, c)
    | _ => none

/-- The printed lines of a run, in order. -/
def RunResult.prints (r : RunResult) : List String :=
  r.effects.filterMap fun e =>
    match e with
    | .printLine s => some s
    | _ => none

/-- The mkdir effects of a run. -/
def RunResult.mkdirs (r : RunResult) : List String :=
  r.effects.filterMap fun e =>
    match e with
    | .mkdir p => some p
    | _ => none

end IconGen

namespace IconGen

/-! ### Generator A: `assets/create-icon.py` -/

/-- Which of the two `ImageFont.truetype` calls of `create-icon.py` would
succeed on the host (depends on installed fonts, not on the repository). -/
structure FontEnv where
  arialNameOk : Bool
  arialPathOk : Bool
deriving DecidableEq, Repr

/-- `ImageFont.truetype(path, size)` as a fallible load: succeeds exactly
when the environment says the font is available. -/
def tryTruetype (path : String) (size : Nat) (ok : Bool) : Except Unit Font :=
  if ok then .ok (.truetype path size) else .error ()

/-- The nested try/except font selection of `create-icon.py` lines 20-27:
try `Arial.ttf`, on any exception try the absolute path, on any exception
take `ImageFont.load_default()` (which always yields a font). -/
def selectFontE (env : FontEnv) : Except Unit Font :=
  match tryTruetype "Arial.ttf" 60 env.arialNameOk with
  | .ok f => .ok f
  | .error _ =>
    match tryTruetype "/System/Library/Fonts/Arial.ttf" 60 env.arialPathOk with
    | .ok f => .ok f
    | .error _ => .ok .builtinDefault

/-- The font the selection yields (it never fails, see `selectFontE`). -/
def selectFont (env : FontEnv) : Font :=
  (selectFontE env).toOption.getD .builtinDefault

/-- Modelled from the spec: the candidate list of the font fallback chain
in priority order, each entry `some f` when that candidate loads. -/
def fontCandidates (env : FontEnv) : List (Option Font) :=
  [ (tryTruetype "Arial.ttf" 60 env.arialNameOk).toOption,
    (tryTruetype "/System/Library/Fonts/Arial.ttf" 60 env.arialPathOk).toOption,
    some .builtinDefault ]

/-- Modelled from the spec: the first candidate that loads. -/
def firstLoaded : List (Option Font) → Option Font
  | [] => none
  | some f :: _ => some f
  | none :: rest => firstLoaded rest

/-- Environment of one run of Generator A. -/
structure EnvA where
  /-- `from PIL import ...` succeeds. -/
  pilOk : Bool
  fontEnv : FontEnv
  /-- Result of `draw.textbbox((0,0), "CC", font=font)` for a given font:
  host font metrics, not fixed by the repository. -/
  ccBBox : Font → BBoxI
  /-- `img.save(icon_path)` succeeds. -/
  iconWriteOk : Bool
  /-- writing `icon-placeholder.txt` succeeds. -/
  placeholderWriteOk : Bool
  /-- `os.path.dirname(os.path.abspath(__file__))`. -/
  scriptDir : String

/-- Canvas side length of Generator A, `size = (128, 128)`. -/
def sizeA : Int := 128

/-- `background_color = (30, 30, 30)`. -/
def backgroundA : Color := Color.rgb 30 30 30

/-- `text_color = (255, 255, 255)`. -/
def textColorA : Color := Color.rgb 255 255 255

/-- Border colour `(60, 60, 60)` of the `draw.rectangle` call. -/
def borderColorA : Color := Color.rgb 60 60 60

/-- The text anchor `create-icon.py` computes from the textbbox `bb`:
`x = (size[0] - text_width) // 2`, `y = (size[1] - text_height) // 2`
(Python `//` is floor division). -/
def ccAnchor (bb : BBoxI) : Int × Int :=
  ((sizeA - (bb.x1 - bb.x0)).fdiv 2, (sizeA - (bb.y1 - bb.y0)).fdiv 2)

/-- The canvas Generator A builds when PIL is available. -/
def canvasA (env : EnvA) : Canvas :=
  let font := selectFont env.fontEnv
  let bb := env.ccBBox font
  { mode := .RGB
    width := 128
    height := 128
    background := backgroundA
    ops := [ .text (ccAnchor bb) "CC" textColorA font,
             .rectangleOutline ⟨0, 0, sizeA - 1, sizeA - 1⟩ borderColorA 2 ] }

/-- `os.path.join(script_dir, name)` for the two names used here. -/
def joinPath (dir name : String) : String := dir ++ "/" ++ name

/-- The exact content the fallback branch writes to
`icon-placeholder.txt` (three `f.write` calls). -/
def placeholderContent : String :=
  "Icon placeholder - Create a 128x128 PNG icon with \x27CC\x27 text on dark background\n"
  ++ "Suggested colors: Background #1e1e1e, Text #ffffff\n"
  ++ "Use any image editor to create icon.png in this directory\n"

/-- One run of `assets/create-icon.py`.  The try block covers the whole
image path; only `ImportError` (modelled: `pilOk = false`) reaches the
fallback branch.  A failing `img.save` or a failing placeholder write is
an unhandled exception: the run keeps the effects already performed and
ends in a fault. -/
def runA (env : EnvA) : RunResult :=
  if env.pilOk then
    if env.iconWriteOk then
      { effects := [ .writeFile (joinPath env.scriptDir "icon.png") (.image (canvasA env)),
                     .printLine ("Icon created successfully at: "
                       ++ joinPath env.scriptDir "icon.png") ]
        outcome := .success }
    else
      { effects := [], outcome := .fault }
  else
    if env.placeholderWriteOk then
      { effects := [ .printLine "PIL (Pillow) not available. Creating a simple text placeholder.",
                     .writeFile (joinPath env.scriptDir "icon-placeholder.txt")
                       (.text placeholderContent),
                     .printLine ("Placeholder created at: "
                       ++ joinPath env.scriptDir "icon-placeholder.txt"),
                     .printLine "Please create icon.png manually using an image editor." ]
        outcome := .success }
    else
      { effects := [ .printLine "PIL (Pillow) not available. Creating a simple text placeholder." ]
        outcome := .fault }

/-- Whether a run wrote the placeholder file of Generator A. -/
def wrotePlaceholder (env : EnvA) (r : RunResult) : Bool :=
  r.writes.any fun w => decide (w.1 = joinPath env.scriptDir "icon-placeholder.txt")

/-- The bounding box occupied by the text when drawn at the computed
anchor.  PIL semantics: `draw.textbbox` is translation invariant, so the
text drawn at `(x, y)` occupies `(x+bb.x0, y+bb.y0, x+bb.x1, y+bb.y1)`
when `bb` is the bbox reported at the origin. -/
def renderedCC (bb : BBoxI) : BBoxI :=
  ⟨(ccAnchor bb).1 + bb.x0, (ccAnchor bb).2 + bb.y0,
   (ccAnchor bb).1 + bb.x1, (ccAnchor bb).2 + bb.y1⟩

/-- Distance from the left canvas edge to the rendered text box. -/
def leftMarginCC (bb : BBoxI) : Int := (renderedCC bb).x0

/-- Distance from the rendered text box to the right canvas edge. -/
def rightMarginCC (bb : BBoxI) : Int := sizeA - (renderedCC bb).x1

/-- Distance from the top canvas edge to the rendered text box. -/
def topMarginCC (bb : BBoxI) : Int := (renderedCC bb).y0

/-- Distance from the rendered text box to the bottom canvas edge. -/
def bottomMarginCC (bb : BBoxI) : Int := sizeA - (renderedCC bb).y1

/-! ### Generator B: `create_png_icon.py` -/

/-- Environment of one run of Generator B: whether `from PIL import ...`
succeeds, whether the hard-coded output directory exists, and whether the
write is permitted.  The script has no try/except at all. -/
structure EnvB where
  pilOk : Bool
  outputDirExists : Bool
  writePermitted : Bool
deriving DecidableEq, Repr

/-- The hard-coded absolute output path of `create_png_icon.py`. -/
def outputPathB : String :=
  "/Users/pedroazevedo/workspace/claude-projects/VersionPlanExtension/assets/claude-icon.png"

/-- Arc colour `(0, 122, 204)`. -/
def arcColorB : Color := Color.rgb 0 122 204

/-- Dot colour `(255, 107, 53)`. -/
def dotColorB : Color := Color.rgb 255 107 53

/-- The fully transparent background `(0, 0, 0, 0)` of `Image.new("RGBA", ...)`. -/
def transparent : Color := ⟨0, 0, 0, 0⟩

/-- The canvas Generator B builds: 24x24 RGBA, transparent background,
an arc over [4,4,20,20] from 45 to 315 degrees, width 3, then a filled
ellipse over [17,5,21,9]. -/
def canvasB : Canvas :=
  { mode := .RGBA
    width := 24
    height := 24
    background := transparent
    ops := [ .arc ⟨4, 4, 20, 20⟩ 45 315 arcColorB 3,
             .ellipseFill ⟨17, 5, 21, 9⟩ dotColorB ] }

/-- One run of `create_png_icon.py`: no handler anywhere, so a missing
library, a missing output directory or a refused write each terminate the
run with no effect recorded; nothing ever creates a directory. -/
def runB (env : EnvB) : RunResult :=
  if env.pilOk then
    if env.outputDirExists && env.writePermitted then
      { effects := [ .writeFile outputPathB (.image canvasB),
                     .printLine "PNG icon created successfully!" ]
        outcome := .success }
    else
      { effects := [], outcome := .fault }
  else
    { effects := [], outcome := .fault }

/-! ### Substring containment (used to state what printed messages and the
placeholder file contain) -/

/-- Whether `pat` is an initial segment of `s` (on character lists). -/
def hasPre : List Char → List Char → Bool
  | [], _ => true
  | _ :: _, [] => false
  | c :: cs, d :: ds => c == d && hasPre cs ds

/-- Whether `pat` occurs as a contiguous run inside `s`. -/
def containsAux (pat : List Char) : List Char → Bool
  | [] => hasPre pat []
  | c :: rest => hasPre pat (c :: rest) || containsAux pat rest

/-- Whether string `s` contains string `pat` as a contiguous substring. -/
def strContains (s pat : String) : Bool :=
  containsAux pat.toList s.toList

/-! ### Concrete instantiations used by witnesses and counterexamples -/

/-- A host where PIL and the Arial name load succeed, with a typical
truetype metric for "CC" at 60pt (nonzero top offset), and all writes
succeed. -/
def envC1 : EnvA :=
  { pilOk := true, fontEnv := ⟨true, true⟩, ccBBox := fun _ => ⟨0, 11, 70, 45⟩,
    iconWriteOk := true, placeholderWriteOk := true, scriptDir := "/repo/assets" }

/-- A host without PIL where the placeholder write succeeds. -/
def envC2a : EnvA :=
  { pilOk := false, fontEnv := ⟨false, false⟩, ccBBox := fun _ => ⟨0, 0, 0, 0⟩,
    iconWriteOk := true, placeholderWriteOk := true, scriptDir := "/repo/assets" }

/-- A host with PIL where the image write fails. -/
def envC2b : EnvA :=
  { pilOk := true, fontEnv := ⟨true, true⟩, ccBBox := fun _ => ⟨0, 11, 70, 45⟩,
    iconWriteOk := false, placeholderWriteOk := true, scriptDir := "/repo/assets" }

/-- A host without PIL where the placeholder write also fails. -/
def envC2c : EnvA :=
  { pilOk := false, fontEnv := ⟨false, false⟩, ccBBox := fun _ => ⟨0, 0, 0, 0⟩,
    iconWriteOk := true, placeholderWriteOk := false, scriptDir := "/repo/assets" }

/-- A host whose selected font reports a "CC" textbbox with top offset 11:
the input on which the literal centering claim fails. -/
def envC4cex : EnvA :=
  { pilOk := true, fontEnv := ⟨true, true⟩, ccBBox := fun _ => ⟨0, 11, 70, 45⟩,
    iconWriteOk := true, placeholderWriteOk := true, scriptDir := "/repo/assets" }

/-- A host whose selected font reports a "CC" textbbox with origin (0,0). -/
def envC4w : EnvA :=
  { pilOk := true, fontEnv := ⟨true, true⟩, ccBBox := fun _ => ⟨0, 0, 70, 34⟩,
    iconWriteOk := true, placeholderWriteOk := true, scriptDir := "/repo/assets" }

/-- Environment for the border-pixel witness. -/
def envC5 : EnvA :=
  { pilOk := true, fontEnv := ⟨true, true⟩, ccBBox := fun _ => ⟨0, 11, 70, 45⟩,
    iconWriteOk := true, placeholderWriteOk := true, scriptDir := "/repo/assets" }

/-- A rasterisation that paints nothing (used only to instantiate the
universally quantified rasterisation parameter). -/
def rasterC5 : Raster :=
  { textCov := fun _ _ _ _ _ => false
    arcCov := fun _ _ _ _ _ _ => false
    ellipseCov := fun _ _ _ => false }

/-- A fully available host for Generator B. -/
def envC6 : EnvB := ⟨true, true, true⟩

/-- A host for Generator B whose output directory does not exist. -/
def envC7 : EnvB := ⟨true, false, true⟩

/-- A host without PIL where the placeholder write succeeds: the run on
which the one-line-message claim fails. -/
def envC8cex : EnvA :=
  { pilOk := false, fontEnv := ⟨false, false⟩, ccBBox := fun _ => ⟨0, 0, 0, 0⟩,
    iconWriteOk := true, placeholderWriteOk := true, scriptDir := "/repo/assets" }

/-- Environments for the amended frame-effect witness. -/
def envC8a : EnvA :=
  { pilOk := true, fontEnv := ⟨true, true⟩, ccBBox := fun _ => ⟨0, 11, 70, 45⟩,
    iconWriteOk := true, placeholderWriteOk := true, scriptDir := "/repo/assets" }

/-- Fallback-path environment for the amended frame-effect witness. -/
def envC8b : EnvA :=
  { pilOk := false, fontEnv := ⟨false, false⟩, ccBBox := fun _ => ⟨0, 0, 0, 0⟩,
    iconWriteOk := true, placeholderWriteOk := true, scriptDir := "/repo/assets" }

/-- Generator B environment for the amended frame-effect witness. -/
def envC8B : EnvB := ⟨true, true, true⟩

/-- A rasterisation that paints each arc/ellipse bounding box entirely:
confined by construction. -/
def boxRaster : Raster :=
  { textCov := fun _ _ _ _ _ => false
    arcCov := fun bb _ _ _ x y => inBBox bb x y
    ellipseCov := fun bb x y => inBBox bb x y }

/-! ## Helper lemmas -/

/-- Appending on the left cancels in string equations. -/
lemma strAppendCancel {d s t : String} (h : d ++ s = d ++ t) : s = t := by
  have h2 := congrArg String.data h
  simp only [String.data_append] at h2
  exact String.ext (List.append_cancel_left h2)

/-- Every character list is an initial segment of itself. -/
lemma hasPre_self (l : List Char) : hasPre l l = true := by
  induction l with
  | nil => rfl
  | cons c cs ih => simp [hasPre, ih]

/-- A character list occurs inside anything that ends with it. -/
lemma containsAux_append (pat a : List Char) : containsAux pat (a ++ pat) = true := by
  induction a with
  | nil =>
    cases pat with
    | nil => rfl
    | cons c cs => simp [containsAux, hasPre_self]
  | cons d rest ih => simp [containsAux, ih]

/-- A string contains any string it ends with. -/
lemma strContains_append (a b : String) : strContains (a ++ b) b = true := by
  unfold strContains
  have h : (a ++ b).toList = a.toList ++ b.toList := String.data_append a b
  rw [h]
  exact containsAux_append _ _

/-! ## Claims -/

/-- Claim C1: whenever the PIL import succeeds and the image write
succeeds, a run of Generator A ends in success and writes exactly one
file, named icon.png in the script directory, whose canvas is a 128x128
image in RGB mode. -/
theorem C1_generatorA_writes_icon (env : EnvA)
    (hpil : env.pilOk = true) (hw : env.iconWriteOk = true) :
    (runA env).outcome = .success ∧
    (runA env).writes = [(joinPath env.scriptDir "icon.png", .image (canvasA env))] ∧
    (canvasA env).width = 128 ∧ (canvasA env).height = 128 ∧
    (canvasA env).mode = .RGB := by
  refine ⟨?_, ?_, rfl, rfl, rfl⟩ <;>
    simp [runA, hpil, hw, RunResult.writes]

/-- Witness for C1 at a concrete host environment. -/
theorem C1_generatorA_writes_icon_witness :
    (runA envC1).outcome = .success ∧
    (runA envC1).writes = [(joinPath envC1.scriptDir "icon.png", .image (canvasA envC1))] ∧
    (canvasA envC1).width = 128 ∧ (canvasA envC1).height = 128 ∧
    (canvasA envC1).mode = .RGB :=
  C1_generatorA_writes_icon envC1 rfl rfl

/-- Claim C3: font selection tries the name "Arial.ttf" at size 60, then
the absolute path at the same size, then the built-in default, and uses
the first candidate that loads: the nested try/except chain equals the
first-success rule over the ordered candidate list. -/
theorem C3_font_chain_priority (env : FontEnv) :
    selectFontE env = .ok (selectFont env) ∧
    firstLoaded (fontCandidates env) = some (selectFont env) ∧
    selectFont env =
      (if env.arialNameOk then Font.truetype "Arial.ttf" 60
       else if env.arialPathOk then Font.truetype "/System/Library/Fonts/Arial.ttf" 60
       else Font.builtinDefault) := by
  obtain ⟨n, p⟩ := env
  cases n <;> cases p <;>
    simp [selectFont, selectFontE, tryTruetype, fontCandidates, firstLoaded,
      Except.toOption]

/-- Claim C9: the font-selection step never raises: for every host, the
chain yields a font value, and when both truetype loads fail, the final
branch yields the built-in default unconditionally. -/
theorem C9_font_selection_total (env : FontEnv) :
    (∃ f, selectFontE env = .ok f) ∧
    (env.arialNameOk = false → env.arialPathOk = false →
      selectFontE env = .ok .builtinDefault) := by
  obtain ⟨n, p⟩ := env
  cases n <;> cases p <;>
    simp [selectFontE, tryTruetype]

/-- Claim C2: on a fault-free run the placeholder file is written exactly
when the PIL import failed, and then it carries the fixed content holding
"128x128", "#1e1e1e" and "#ffffff"; a failing image write or a failing
placeholder write is uncaught: the run ends in a fault with no placeholder
written. -/
theorem C2_placeholder_iff_import_failure (env : EnvA) :
    ((runA env).outcome = .success →
      (wrotePlaceholder env (runA env) = true ↔ env.pilOk = false)) ∧
    (env.pilOk = false → (runA env).outcome = .success →
      (runA env).writes
        = [(joinPath env.scriptDir "icon-placeholder.txt", .text placeholderContent)] ∧
      strContains placeholderContent "128x128" = true ∧
      strContains placeholderContent "#1e1e1e" = true ∧
      strContains placeholderContent "#ffffff" = true) ∧
    (env.pilOk = true → env.iconWriteOk = false →
      (runA env).outcome = .fault ∧ wrotePlaceholder env (runA env) = false) ∧
    (env.pilOk = false → env.placeholderWriteOk = false →
      (runA env).outcome = .fault ∧ wrotePlaceholder env (runA env) = false) := by
  obtain ⟨pil, fe, bbox, iw, pw, dir⟩ := env
  have hne : dir ++ "/" ++ "icon.png" ≠ dir ++ "/" ++ "icon-placeholder.txt" := by
    intro h
    rw [String.append_assoc, String.append_assoc] at h
    exact absurd (strAppendCancel h) (by decide)
  cases pil <;> cases iw <;> cases pw <;>
    simp [runA, RunResult.writes, wrotePlaceholder, joinPath, hne] <;>
    refine ⟨by decide, by decide, by decide⟩

/-- Witness for C2 at three concrete hosts: the fallback run writes the
placeholder with its content; a failing image write and a failing
placeholder write each end in a fault without a placeholder. -/
theorem C2_placeholder_iff_import_failure_witness :
    (wrotePlaceholder envC2a (runA envC2a) = true ↔ envC2a.pilOk = false) ∧
    ((runA envC2a).writes
        = [(joinPath envC2a.scriptDir "icon-placeholder.txt", .text placeholderContent)] ∧
      strContains placeholderContent "128x128" = true ∧
      strContains placeholderContent "#1e1e1e" = true ∧
      strContains placeholderContent "#ffffff" = true) ∧
    ((runA envC2b).outcome = .fault ∧ wrotePlaceholder envC2b (runA envC2b) = false) ∧
    ((runA envC2c).outcome = .fault ∧ wrotePlaceholder envC2c (runA envC2c) = false) :=
  ⟨(C2_placeholder_iff_import_failure envC2a).1 rfl,
   (C2_placeholder_iff_import_failure envC2a).2.1 rfl rfl,
   (C2_placeholder_iff_import_failure envC2b).2.2.1 rfl rfl,
   (C2_placeholder_iff_import_failure envC2c).2.2.2 rfl rfl⟩

/-- Counterexample to claim C4 as stated: on a host whose selected font
reports textbbox (0, 11, 70, 45) for "CC" (a typical truetype metric with
top offset 11), the drawn text occupies a box whose top margin is 58 and
bottom margin is 36: the vertical margins are not equal up to
integer-division rounding. -/
theorem C4_centering_cex :
    (canvasA envC4cex).ops.get? 0
      = some (.text (ccAnchor ⟨0, 11, 70, 45⟩) "CC" textColorA (Font.truetype "Arial.ttf" 60)) ∧
    topMarginCC ⟨0, 11, 70, 45⟩ = 58 ∧
    bottomMarginCC ⟨0, 11, 70, 45⟩ = 36 ∧
    ¬(|topMarginCC ⟨0, 11, 70, 45⟩ - bottomMarginCC ⟨0, 11, 70, 45⟩| ≤ 1) := by
  refine ⟨rfl, by decide, by decide, by decide⟩

/-- Claim C4 (amended): the computed anchor centers a box of the textbbox
size, but the text renders offset by the textbbox origin: the rendered
box satisfies left - right = 2*x0 - parity and top - bottom = 2*y0 -
parity, parity being the floor-division remainder; the margins on an axis
are hence equal up to rounding exactly on hosts whose textbbox origin
offset on that axis is zero. -/
theorem C4_centering_amended (env : EnvA) (bb : BBoxI)
    (hbb : env.ccBBox (selectFont env.fontEnv) = bb) :
    (canvasA env).ops.get? 0
      = some (.text (ccAnchor bb) "CC" textColorA (selectFont env.fontEnv)) ∧
    leftMarginCC bb - rightMarginCC bb
      = 2 * bb.x0 - (sizeA - (bb.x1 - bb.x0)).fmod 2 ∧
    topMarginCC bb - bottomMarginCC bb
      = 2 * bb.y0 - (sizeA - (bb.y1 - bb.y0)).fmod 2 ∧
    (bb.x0 = 0 → |leftMarginCC bb - rightMarginCC bb| ≤ 1) ∧
    (bb.y0 = 0 → |topMarginCC bb - bottomMarginCC bb| ≤ 1) := by
  have hx := Int.fmod_add_fdiv (sizeA - (bb.x1 - bb.x0)) 2
  have hy := Int.fmod_add_fdiv (sizeA - (bb.y1 - bb.y0)) 2
  have hx0 := Int.fmod_nonneg' (sizeA - (bb.x1 - bb.x0)) (by decide : (0:Int) < 2)
  have hx1 := Int.fmod_lt_of_pos (sizeA - (bb.x1 - bb.x0)) (by decide : (0:Int) < 2)
  have hy0 := Int.fmod_nonneg' (sizeA - (bb.y1 - bb.y0)) (by decide : (0:Int) < 2)
  have hy1 := Int.fmod_lt_of_pos (sizeA - (bb.y1 - bb.y0)) (by decide : (0:Int) < 2)
  refine ⟨by simp [canvasA, hbb], ?_, ?_, ?_, ?_⟩ <;>
    simp only [leftMarginCC, rightMarginCC, topMarginCC, bottomMarginCC,
      renderedCC, ccAnchor] <;>
    first
      | omega
      | (intro h0; rw [abs_le]; constructor <;> omega)

/-- Witness for C4 (amended) on a host whose font reports textbbox
(0, 0, 70, 34) for "CC": both margin pairs agree up to rounding. -/
theorem C4_centering_amended_witness :
    (canvasA envC4w).ops.get? 0
      = some (.text (ccAnchor ⟨0, 0, 70, 34⟩) "CC" textColorA (selectFont envC4w.fontEnv)) ∧
    leftMarginCC ⟨0, 0, 70, 34⟩ - rightMarginCC ⟨0, 0, 70, 34⟩
      = 2 * (0:Int) - ((sizeA - ((70:Int) - 0)).fmod 2) ∧
    topMarginCC ⟨0, 0, 70, 34⟩ - bottomMarginCC ⟨0, 0, 70, 34⟩
      = 2 * (0:Int) - ((sizeA - ((34:Int) - 0)).fmod 2) ∧
    |leftMarginCC ⟨0, 0, 70, 34⟩ - rightMarginCC ⟨0, 0, 70, 34⟩| ≤ 1 ∧
    |topMarginCC ⟨0, 0, 70, 34⟩ - bottomMarginCC ⟨0, 0, 70, 34⟩| ≤ 1 := by
  obtain ⟨h1, h2, h3, h4, h5⟩ := C4_centering_amended envC4w ⟨0, 0, 70, 34⟩ rfl
  exact ⟨h1, h2, h3, h4 rfl, h5 rfl⟩

/-- Claim C5: the second drawing operation of Generator A is a 2-pixel
border rectangle over (0,0)-(127,127); since it is drawn last and its
band covers the origin, pixel (0,0) of the saved image has the border
colour (60,60,60), which differs from the background fill (30,30,30) --
for every rasterisation of the text primitive. -/
theorem C5_border_touches_origin (rz : Raster) (env : EnvA)
    (hpil : env.pilOk = true) (hw : env.iconWriteOk = true) :
    (runA env).writes = [(joinPath env.scriptDir "icon.png", .image (canvasA env))] ∧
    (canvasA env).ops.get? 1
      = some (.rectangleOutline ⟨0, 0, 127, 127⟩ borderColorA 2) ∧
    Canvas.pixel rz (canvasA env) 0 0 = borderColorA ∧
    borderColorA ≠ backgroundA := by
  have hcov : rectOutlineCov ⟨0, 0, sizeA - 1, sizeA - 1⟩ 2 0 0 = true := by decide
  refine ⟨by simp [runA, hpil, hw, RunResult.writes], rfl, ?_, by decide⟩
  simp [Canvas.pixel, canvasA, opPaints, hcov]

/-- Witness for C5 at a concrete host and the empty rasterisation. -/
theorem C5_border_touches_origin_witness :
    (runA envC5).writes = [(joinPath envC5.scriptDir "icon.png", .image (canvasA envC5))] ∧
    (canvasA envC5).ops.get? 1
      = some (.rectangleOutline ⟨0, 0, 127, 127⟩ borderColorA 2) ∧
    Canvas.pixel rasterC5 (canvasA envC5) 0 0 = borderColorA ∧
    borderColorA ≠ backgroundA :=
  C5_border_touches_origin rasterC5 envC5 rfl rfl

/-- Claim C6: a fully successful run of Generator B writes exactly one
file, at the hard-coded absolute path, holding a 24x24 RGBA canvas with a
fully transparent background, on which exactly two operations were drawn
in order: the arc over [4,4,20,20] from 45 to 315 degrees in (0,122,204)
with width 3, then the filled ellipse over [17,5,21,9] in (255,107,53). -/
theorem C6_generatorB_output (env : EnvB)
    (hpil : env.pilOk = true) (hdir : env.outputDirExists = true)
    (hw : env.writePermitted = true) :
    (runB env).outcome = .success ∧
    (runB env).writes = [(outputPathB, .image canvasB)] ∧
    canvasB.mode = .RGBA ∧ canvasB.width = 24 ∧ canvasB.height = 24 ∧
    canvasB.background = transparent ∧
    canvasB.ops = [.arc ⟨4, 4, 20, 20⟩ 45 315 arcColorB 3,
                   .ellipseFill ⟨17, 5, 21, 9⟩ dotColorB] := by
  refine ⟨?_, ?_, rfl, rfl, rfl, rfl, rfl⟩ <;>
    simp [runB, hpil, hdir, hw, RunResult.writes]

/-- Witness for C6 at the fully available host. -/
theorem C6_generatorB_output_witness :
    (runB envC6).outcome = .success ∧
    (runB envC6).writes = [(outputPathB, .image canvasB)] ∧
    canvasB.mode = .RGBA ∧ canvasB.width = 24 ∧ canvasB.height = 24 ∧
    canvasB.background = transparent ∧
    canvasB.ops = [.arc ⟨4, 4, 20, 20⟩ 45 315 arcColorB 3,
                   .ellipseFill ⟨17, 5, 21, 9⟩ dotColorB] :=
  C6_generatorB_output envC6 rfl rfl rfl

/-- Claim C7: Generator B handles nothing: a missing library, a missing
output directory or a refused write each end the run in a fault with no
file written; and no run of Generator B ever creates a directory. -/
theorem C7_generatorB_no_handler (env : EnvB) :
    ((env.pilOk && (env.outputDirExists && env.writePermitted)) = false →
      (runB env).outcome = .fault ∧ (runB env).writes = []) ∧
    (runB env).mkdirs = [] := by
  obtain ⟨pil, dir, wr⟩ := env
  cases pil <;> cases dir <;> cases wr <;>
    simp [runB, RunResult.writes, RunResult.mkdirs]

/-- Witness for C7 at the host whose output directory is missing. -/
theorem C7_generatorB_no_handler_witness :
    ((runB envC7).outcome = .fault ∧ (runB envC7).writes = []) ∧
    (runB envC7).mkdirs = [] :=
  ⟨(C7_generatorB_no_handler envC7).1 rfl, (C7_generatorB_no_handler envC7).2⟩

/-- Counterexample to claim C8 as stated: the fallback run of Generator A
succeeds, writes one file, but prints three lines, not one; and Generator
the single line Generator B prints does not contain the path it wrote. -/
theorem C8_frame_cex :
    (runA envC8cex).outcome = .success ∧
    (runA envC8cex).writes.length = 1 ∧
    (runA envC8cex).prints.length = 3 ∧
    ¬((runA envC8cex).prints.length = 1) ∧
    (runB envC6).prints = ["PNG icon created successfully!"] ∧
    strContains "PNG icon created successfully!" outputPathB = false := by
  refine ⟨rfl, rfl, rfl, by decide, rfl, by decide⟩

/-- Claim C8 (amended): every fault-free run writes exactly one file; on
the image path of Generator A exactly one line is printed and it contains the
written path; on the fallback path three lines are printed, of which the
second contains the written path; Generator B prints exactly one line,
which names no path. -/
theorem C8_frame_amended (envA : EnvA) (envB : EnvB) :
    ((runA envA).outcome = .success → (runA envA).writes.length = 1) ∧
    ((runB envB).outcome = .success → (runB envB).writes.length = 1) ∧
    (envA.pilOk = true → (runA envA).outcome = .success →
      (runA envA).prints
        = ["Icon created successfully at: " ++ joinPath envA.scriptDir "icon.png"] ∧
      strContains ("Icon created successfully at: " ++ joinPath envA.scriptDir "icon.png")
        (joinPath envA.scriptDir "icon.png") = true) ∧
    (envA.pilOk = false → (runA envA).outcome = .success →
      (runA envA).prints.length = 3 ∧
      (runA envA).prints.get? 1
        = some ("Placeholder created at: " ++ joinPath envA.scriptDir "icon-placeholder.txt") ∧
      strContains
        ("Placeholder created at: " ++ joinPath envA.scriptDir "icon-placeholder.txt")
        (joinPath envA.scriptDir "icon-placeholder.txt") = true) ∧
    ((runB envB).outcome = .success →
      (runB envB).prints = ["PNG icon created successfully!"] ∧
      strContains "PNG icon created successfully!" outputPathB = false) := by
  obtain ⟨pil, fe, bbox, iw, pw, dir⟩ := envA
  obtain ⟨bpil, bdir, bwr⟩ := envB
  cases pil <;> cases iw <;> cases pw <;> cases bpil <;> cases bdir <;> cases bwr <;>
    simp [runA, runB, RunResult.writes, RunResult.prints, strContains_append,
      joinPath] <;>
    decide

/-- Witness for C8 (amended) at concrete hosts covering the image path,
the fallback path and Generator B. -/
theorem C8_frame_amended_witness :
    ((runA envC8a).writes.length = 1) ∧
    ((runB envC8B).writes.length = 1) ∧
    ((runA envC8a).prints
        = ["Icon created successfully at: " ++ joinPath envC8a.scriptDir "icon.png"] ∧
      strContains ("Icon created successfully at: " ++ joinPath envC8a.scriptDir "icon.png")
        (joinPath envC8a.scriptDir "icon.png") = true) ∧
    ((runA envC8b).prints.length = 3 ∧
      (runA envC8b).prints.get? 1
        = some ("Placeholder created at: " ++ joinPath envC8b.scriptDir "icon-placeholder.txt") ∧
      strContains
        ("Placeholder created at: " ++ joinPath envC8b.scriptDir "icon-placeholder.txt")
        (joinPath envC8b.scriptDir "icon-placeholder.txt") = true) ∧
    ((runB envC8B).prints = ["PNG icon created successfully!"] ∧
      strContains "PNG icon created successfully!" outputPathB = false) :=
  ⟨(C8_frame_amended envC8a envC8B).1 rfl,
   (C8_frame_amended envC8a envC8B).2.1 rfl,
   (C8_frame_amended envC8a envC8B).2.2.1 rfl rfl,
   (C8_frame_amended envC8b envC8B).2.2.2.1 rfl rfl,
   (C8_frame_amended envC8a envC8B).2.2.2.2 rfl⟩

/-- No pixel outside both bounding boxes of the two drawing
operations is ever painted, for a confined rasterisation. -/
lemma canvasB_pixel_outside (rz : Raster) (h : rz.Confined) (x y : Int)
    (hx : inBBox ⟨4, 4, 20, 20⟩ x y = false)
    (hy : inBBox ⟨17, 5, 21, 9⟩ x y = false) :
    Canvas.pixel rz canvasB x y = transparent := by
  have h1 : rz.arcCov ⟨4, 4, 20, 20⟩ 45 315 3 x y = false := by
    cases hc : rz.arcCov ⟨4, 4, 20, 20⟩ 45 315 3 x y
    · rfl
    · exact absurd (h.1 _ _ _ _ _ _ hc) (by simp [hx])
  have h2 : rz.ellipseCov ⟨17, 5, 21, 9⟩ x y = false := by
    cases hc : rz.ellipseCov ⟨17, 5, 21, 9⟩ x y
    · rfl
    · exact absurd (h.2 _ _ _ hc) (by simp [hy])
  simp [Canvas.pixel, canvasB, opPaints, h1, h2]

/-- Claim C10: under any rasterisation confined to the bounding boxes PIL
documents, the four corner pixels of the Generator B canvas keep the fully
transparent background (alpha 0). -/
theorem C10_corners_transparent (rz : Raster) (h : rz.Confined) :
    Canvas.pixel rz canvasB 0 0 = transparent ∧
    Canvas.pixel rz canvasB 23 0 = transparent ∧
    Canvas.pixel rz canvasB 0 23 = transparent ∧
    Canvas.pixel rz canvasB 23 23 = transparent ∧
    transparent.a = 0 :=
  ⟨canvasB_pixel_outside rz h 0 0 (by decide) (by decide),
   canvasB_pixel_outside rz h 23 0 (by decide) (by decide),
   canvasB_pixel_outside rz h 0 23 (by decide) (by decide),
   canvasB_pixel_outside rz h 23 23 (by decide) (by decide),
   rfl⟩

/-- Witness for C10 with the rasterisation that paints every bounding box
entirely (confined by construction). -/
theorem C10_corners_transparent_witness :
    Canvas.pixel boxRaster canvasB 0 0 = transparent ∧
    Canvas.pixel boxRaster canvasB 23 0 = transparent ∧
    Canvas.pixel boxRaster canvasB 0 23 = transparent ∧
    Canvas.pixel boxRaster canvasB 23 23 = transparent ∧
    transparent.a = 0 :=
  C10_corners_transparent boxRaster
    ⟨fun _ _ _ _ _ _ hh => hh, fun _ _ _ hh => hh⟩

/-- Witness for C9 at the host where both truetype loads fail. -/
theorem C9_font_selection_total_witness :
    (∃ f, selectFontE ⟨false, false⟩ = .ok f) ∧
    selectFontE ⟨false, false⟩ = .ok .builtinDefault :=
  ⟨(C9_font_selection_total ⟨false, false⟩).1,
   (C9_font_selection_total ⟨false, false⟩).2 rfl rfl⟩

end IconGen
